import Mathlib

/-!
Shallow embedding of the aws-rag chat pipeline
(`src/api_lambda/api.py` and `src/worker_lambda/worker.py`).

The DynamoDB table is modelled as a list of stored items; the SQS queue as a
list of job payloads.  External effects (UUID generation, clock reads, the
Bedrock call, put/enqueue failures) are passed in as explicit parameters so
the pure data flow of the Python code can be stated and proved.
-/

namespace AwsRag

/-- A scalar value of type `Union[str, int]` (the value type of the
`content` dict in `MessageInDB`/`Message`). -/
inductive StrOrInt where
  | s : String → StrOrInt
  | i : Int → StrOrInt
deriving DecidableEq, Repr

/-- A Python value appearing in a `metadata` dict (`Dict[str, Any]` as
actually populated by the two writers: ints and strings only). -/
inductive PyVal where
  | str : String → PyVal
  | int : Int → PyVal
deriving DecidableEq, Repr

/-- `content: Union[str, Dict[str, Union[str, int]]]` of a stored message
(`api.py` `MessageInDB.content`, `worker.py` `Message.content`).  A dict is
modelled as an association list in insertion order (Python dicts preserve
insertion order, which `json.dumps` follows). -/
inductive Content where
  | str : String → Content
  | dict : List (String × StrOrInt) → Content
deriving DecidableEq, Repr

/-- A record of the DynamoDB table: the item dict written by
`ChatService.send_message` (api.py line 161) or
`DynamoDBRepository.save_assistant_message` (worker.py line 107). -/
structure StoredMessage where
  PK : String
  SK : String
  message_id : String
  role : String
  content : Content
  created_at : String
  session_status : String
  model : Option String := none
  metadata : List (String × PyVal)
deriving DecidableEq, Repr

/-- `MessageMetadata` pydantic model of api.py (user-turn metadata). -/
structure MessageMetadata where
  tokens : Int := 0
  source : String := "api"
deriving DecidableEq, Repr

/-- `MessageMetadata(...).model_dump()`: the dict stored under `metadata`
for user turns. -/
def MessageMetadata.model_dump (m : MessageMetadata) : List (String × PyVal) :=
  [("tokens", PyVal.int m.tokens), ("source", PyVal.str m.source)]

/-- `AssistantMetadata` pydantic model of worker.py. -/
structure AssistantMetadata where
  latency_ms : Int
  input_tokens : Int
  output_tokens : Int
  user_message_id : String
deriving DecidableEq, Repr

/-- `AssistantMetadata(...).model_dump()`: the dict stored under `metadata`
for assistant turns — exactly these four keys. -/
def AssistantMetadata.model_dump (m : AssistantMetadata) : List (String × PyVal) :=
  [("latency_ms", PyVal.int m.latency_ms),
   ("input_tokens", PyVal.int m.input_tokens),
   ("output_tokens", PyVal.int m.output_tokens),
   ("user_message_id", PyVal.str m.user_message_id)]

/-- `SendMessageRequest` pydantic model (api.py): a validated body. -/
structure SendMessageRequest where
  user_id : String
  session_id : String
  content : String
deriving DecidableEq, Repr

/-- The raw JSON body of `POST /chat` before pydantic validation: each field
either absent (`none`) or a string. -/
structure RawSendMessageBody where
  user_id : Option String
  session_id : Option String
  content : Option String
deriving DecidableEq, Repr

/-- `GetMessagesQueryParams` pydantic model (api.py): a validated query. -/
structure GetMessagesQueryParams where
  user_id : String
  session_id : String
  limit : Int
deriving DecidableEq, Repr

/-- Raw query string of `GET /messages` before validation; `limit` is the
parsed integer when present (`"50"` is supplied by the route as default). -/
structure RawGetMessagesParams where
  user_id : Option String
  session_id : Option String
  limit : Option Int
deriving DecidableEq, Repr

/-- `MessageSentResponse` pydantic model (api.py). -/
structure MessageSentResponse where
  message_id : String
  status : String := "processing"
  timestamp : String
deriving DecidableEq, Repr

/-- The error taxonomy of the spec (§7) as surfaced by the code: pydantic
`ValidationError`, a DynamoDB put failure, an SQS enqueue failure after the
write (`DownstreamError`), a Bedrock failure. -/
inductive PipelineError where
  | validationError
  | storageError
  | downstreamError
  | generationError
deriving DecidableEq, Repr

/-- The SQS job payload `{user_id, session_id, message_id}` built at
api.py line 176. -/
structure SqsJob where
  user_id : String
  session_id : String
  message_id : String
deriving DecidableEq, Repr

/-- Shared state touched by the ingestion path: the DynamoDB table (as the
append sequence of items) and the SQS queue. -/
structure ApiState where
  store : List StoredMessage
  queue : List SqsJob
deriving DecidableEq, Repr

/-- Python `str.isspace` membership used by no-argument `str.split()`,
restricted to the ASCII whitespace classes (space, tab, newline, carriage
return, vertical tab, form feed). -/
def pyIsSpace (c : Char) : Bool :=
  c = ' ' || c = '\t' || c = '\n' || c = '\r' || c.toNat = 11 || c.toNat = 12

/-- Helper for `pyStrSplit`: walk the characters, accumulating the current
word (reversed); whitespace closes the word if one is open. -/
def pySplitAux : List Char → List Char → List String
  | [], acc => if acc.isEmpty then [] else [String.mk acc.reverse]
  | c :: cs, acc =>
      if pyIsSpace c then
        if acc.isEmpty then pySplitAux cs []
        else String.mk acc.reverse :: pySplitAux cs []
      else pySplitAux cs (c :: acc)

/-- Python `content.split()` (api.py line 159): split on runs of whitespace,
discarding empty pieces. -/
def pyStrSplit (s : String) : List String :=
  pySplitAux s.data []

/-- Strip `sep` from the front of a character list, returning the rest when
it matches. -/
def stripSepFront : List Char → List Char → Option (List Char)
  | [], rest => some rest
  | _, [] => none
  | p :: ps, c :: cs => if c = p then stripSepFront ps cs else none

/-- Helper for `pySplitOn`: scan left to right for non-overlapping
occurrences of the separator `s0 :: srest`, cutting at each; `fuel` bounds
the recursion by the input length (each step consumes one unit of fuel and
at least one character, so fuel never runs out early). -/
def pySplitOnAux (s0 : Char) (srest : List Char) :
    Nat → List Char → List Char → List String
  | 0, _, acc => [String.mk acc.reverse]
  | _ + 1, [], acc => [String.mk acc.reverse]
  | fuel + 1, c :: cs, acc =>
      if c = s0 then
        match stripSepFront srest cs with
        | some rest =>
            String.mk acc.reverse :: pySplitOnAux s0 srest fuel rest []
        | none => pySplitOnAux s0 srest fuel cs (c :: acc)
      else pySplitOnAux s0 srest fuel cs (c :: acc)

/-- Python `s.split(sep)` for a non-empty separator, as used at api.py line
116 (`pk.split("#SESSION#")`). -/
def pySplitOn (s sep : String) : List String :=
  match sep.data with
  | [] => [s]
  | s0 :: srest => pySplitOnAux s0 srest s.data.length s.data []

/-- DynamoDB `begins_with(PK, p)` / Python `str.startswith`: character-list
prefix test. -/
def pyStartsWith (s p : String) : Bool :=
  p.data.isPrefixOf s.data

/-- The composite partition key `USER#{user_id}#SESSION#{session_id}`. -/
def mkPK (user_id session_id : String) : String :=
  "USER#" ++ user_id ++ "#SESSION#" ++ session_id

/-- `SendMessageRequest.model_validate` on a raw JSON body: each field must
be present (pydantic `str` fields accept any string, including the empty
string; only a missing field raises `ValidationError`). -/
def validateSendMessageRequest (raw : RawSendMessageBody) :
    Except PipelineError SendMessageRequest :=
  match raw.user_id, raw.session_id, raw.content with
  | some u, some s, some c => Except.ok ⟨u, s, c⟩
  | _, _, _ => Except.error PipelineError.validationError

/-- `GetMessagesQueryParams.model_validate` on the raw query params:
`user_id` and `session_id` must be present; `limit` defaults to 50 and must
satisfy `ge=1, le=100` (api.py line 59) — out-of-range values are rejected,
not clamped. -/
def validateGetMessagesQueryParams (raw : RawGetMessagesParams) :
    Except PipelineError GetMessagesQueryParams :=
  match raw.user_id, raw.session_id with
  | some u, some s =>
      let l : Int := raw.limit.getD 50
      if 1 ≤ l ∧ l ≤ 100 then Except.ok ⟨u, s, l⟩
      else Except.error PipelineError.validationError
  | _, _ => Except.error PipelineError.validationError

/-- `ChatService.send_message` (api.py lines 146-184).  `message_id` and
`timestamp` stand for the freshly generated UUID and UTC clock read; `putOk`
and `enqueueOk` say whether the DynamoDB put and the SQS send succeed.
Returns the state after execution together with the response or the
propagated error: the put strictly precedes the enqueue, and a failed
enqueue leaves the already-written item in place (no rollback). -/
def send_message (putOk enqueueOk : Bool) (message_id timestamp : String)
    (body : SendMessageRequest) (st : ApiState) :
    ApiState × Except PipelineError MessageSentResponse :=
  let pk := mkPK body.user_id body.session_id
  let token_count : Int := (pyStrSplit body.content).length
  let item : StoredMessage :=
    { PK := pk
      SK := timestamp
      message_id := message_id
      role := "user"
      content := Content.str body.content
      created_at := timestamp
      session_status := "active"
      model := none
      metadata := MessageMetadata.model_dump ⟨token_count, "api"⟩ }
  if putOk then
    let st1 : ApiState := { st with store := st.store ++ [item] }
    if enqueueOk then
      ({ st1 with queue := st1.queue ++ [⟨body.user_id, body.session_id, message_id⟩] },
        Except.ok ⟨message_id, "processing", timestamp⟩)
    else
      (st1, Except.error PipelineError.downstreamError)
  else
    (st, Except.error PipelineError.storageError)

/-- The `POST /chat` route handler (api.py lines 209-229): validate the raw
body, run the service, and map the outcome to the `statusCode` it reports
(202 on success, 500 on any exception — including `ValidationError`). -/
def post_chat_message (raw : RawSendMessageBody) (putOk enqueueOk : Bool)
    (message_id timestamp : String) (st : ApiState) : ApiState × Nat :=
  match validateSendMessageRequest raw with
  | Except.error _ => (st, 500)
  | Except.ok body =>
      match send_message putOk enqueueOk message_id timestamp body st with
      | (st1, Except.ok _) => (st1, 202)
      | (st1, Except.error _) => (st1, 500)

/-- The DynamoDB `query` call shared by `query_messages` (api.py line 91)
and `get_conversation_history` (worker.py line 81): items of the partition
`pk`, in descending sort-key order (`ScanIndexForward=False`), truncated to
`Limit`.  Ties on `SK` are returned in a fixed but unspecified order
(insertion sort is stable; real DynamoDB cannot hold two items with the
same key). -/
def dynamoQueryDesc (table : List StoredMessage) (pk : String) (limit : Nat) :
    List StoredMessage :=
  (((table.filter fun m => m.PK == pk).insertionSort
      fun a b => b.SK ≤ a.SK).take limit)

/-- `DynamoDBRepository.query_messages` (api.py lines 86-102): descending
read then `messages.reverse()` to chronological order. -/
def query_messages (table : List StoredMessage) (user_id session_id : String)
    (limit : Nat) : List StoredMessage :=
  (dynamoQueryDesc table (mkPK user_id session_id) limit).reverse

/-- `DynamoDBRepository.get_conversation_history` (worker.py lines 77-90):
identical read path on the worker side. -/
def get_conversation_history (table : List StoredMessage)
    (user_id session_id : String) (limit : Nat) : List StoredMessage :=
  (dynamoQueryDesc table (mkPK user_id session_id) limit).reverse

/-- `DynamoDBRepository.get_user_sessions` (api.py lines 104-123): index
query on `session_status = "active"` filtered by `begins_with(PK,
"USER#{user_id}#")`, then `pk.split("#SESSION#")[1]` collected into a
Python `set`; a PK without the separator raises `IndexError`, which is
caught and skipped. -/
def get_user_sessions (table : List StoredMessage) (user_id : String) :
    Finset String :=
  ((table.filter fun m =>
      m.session_status == "active" && pyStartsWith m.PK ("USER#" ++ user_id ++ "#")).filterMap
    fun m => (pySplitOn m.PK "#SESSION#").get? 1).toFinset

/-- `SQSRepository.send_message` wrapped by the service; the record parsed
from the queue on the worker side: `WorkerMessageBody` pydantic model
(worker.py lines 54-57). -/
structure WorkerMessageBody where
  user_id : String
  session_id : String
  message_id : String
deriving DecidableEq, Repr

/-- The raw JSON of one SQS record body before `WorkerMessageBody.parse_raw`:
each field either absent or a string. -/
structure RawWorkerBody where
  user_id : Option String
  session_id : Option String
  message_id : Option String
deriving DecidableEq, Repr

/-- `WorkerMessageBody.parse_raw(record["body"])` (worker.py line 293):
pydantic requires all three fields; a payload missing any of them raises
`ValidationError` rather than being dropped. -/
def parseWorkerMessageBody (raw : RawWorkerBody) :
    Except PipelineError WorkerMessageBody :=
  match raw.user_id, raw.session_id, raw.message_id with
  | some u, some s, some m => Except.ok ⟨u, s, m⟩
  | _, _, _ => Except.error PipelineError.validationError

/-- `LLMUsage` pydantic model (worker.py). -/
structure LLMUsage where
  input_tokens : Int := 0
  output_tokens : Int := 0
deriving DecidableEq, Repr

/-- `LLMResponse` pydantic model (worker.py): the generation backend's
reply content plus usage counters. -/
structure LLMResponse where
  content : Content
  usage : LLMUsage
deriving DecidableEq, Repr

/-- `LLMInputMessage` pydantic model (worker.py): one role+text turn for
the generation backend. -/
structure LLMInputMessage where
  role : String
  content : String
deriving DecidableEq, Repr

/-- One hexadecimal digit, lowercase (as CPython's json encoder emits). -/
def hexDigit (n : Nat) : Char :=
  if n < 10 then Char.ofNat (48 + n) else Char.ofNat (87 + n % 16)

/-- Four-hex-digit rendering of `n` for a `\uXXXX` escape. -/
def hex4 (n : Nat) : String :=
  String.mk [hexDigit (n / 4096 % 16), hexDigit (n / 256 % 16),
             hexDigit (n / 16 % 16), hexDigit (n % 16)]

/-- Escaping of one character by `json.dumps` with its default
`ensure_ascii=True`: the two-character escapes for quote, backslash and the
control characters with short forms, and `\uXXXX` (surrogate pairs above
the BMP) for every character outside printable ASCII `0x20`-`0x7e`. -/
def jsonEscapeChar (c : Char) : String :=
  if c = '"' then "\\\""
  else if c = '\\' then "\\\\"
  else if c = '\n' then "\\n"
  else if c = '\t' then "\\t"
  else if c = '\r' then "\\r"
  else if c.toNat = 8 then "\\b"
  else if c.toNat = 12 then "\\f"
  else if c.toNat < 32 || c.toNat > 126 then
    if c.toNat ≤ 65535 then "\\u" ++ hex4 c.toNat
    else
      let v := c.toNat - 65536
      "\\u" ++ hex4 (55296 + v / 1024) ++ "\\u" ++ hex4 (56320 + v % 1024)
  else String.singleton c

/-- A JSON string literal as `json.dumps` renders it. -/
def jsonStringLit (s : String) : String :=
  "\"" ++ String.join (s.data.map jsonEscapeChar) ++ "\""

/-- One scalar dict value as `json.dumps` renders it. -/
def jsonScalar : StrOrInt → String
  | StrOrInt.s v => jsonStringLit v
  | StrOrInt.i n => toString n

/-- `json.dumps` on a `Dict[str, Union[str, int]]` with the default
separators `", "` and `": "`, keys in insertion order: the canonical text
serialization used at worker.py line 205. -/
def jsonDumps (d : List (String × StrOrInt)) : String :=
  "\x7b" ++
    String.intercalate ", "
      (d.map fun kv => jsonStringLit kv.1 ++ ": " ++ jsonScalar kv.2) ++
  "\x7d"

/-- `LLMProvider.build_bedrock_messages` (worker.py lines 197-208): map
each historical Message to one role+text turn, serializing non-string
content with `json.dumps`; written as the source's accumulating loop. -/
def build_bedrock_messages (conversation_history : List StoredMessage) :
    List LLMInputMessage :=
  conversation_history.foldl
    (fun messages msg =>
      let c : String :=
        match msg.content with
        | Content.str s => s
        | Content.dict d => jsonDumps d
      messages ++ [⟨msg.role, c⟩])
    []

/-- A LangChain chat message as built inside
`LangchainLLMAmazonNovaLiteStrategy.invoke_llm`. -/
inductive LangchainMessage where
  | human : String → LangchainMessage
  | ai : String → LangchainMessage
deriving DecidableEq, Repr

/-- The `langchain_messages` loop of
`LangchainLLMAmazonNovaLiteStrategy.invoke_llm` (worker.py lines 147-155):
`role == "user"` becomes `HumanMessage`, `role == "assistant"` becomes
`AIMessage`, any other role falls through both branches and is appended
nowhere. -/
def toLangchainMessages (messages : List LLMInputMessage) :
    List LangchainMessage :=
  messages.foldl
    (fun langchain_messages msg =>
      if msg.role = "user" then
        langchain_messages ++ [LangchainMessage.human msg.content]
      else if msg.role = "assistant" then
        langchain_messages ++ [LangchainMessage.ai msg.content]
      else langchain_messages)
    []

/-- `DynamoDBRepository.save_assistant_message` (worker.py lines 92-122).
`message_id` and `timestamp` stand for the fresh UUID and clock read;
`bedrock_model_id` is the `BEDROCK_MODEL_ID` configuration.  Returns the
table after the put together with the new message id. -/
def save_assistant_message (bedrock_model_id : String)
    (message_id timestamp : String) (user_id session_id : String)
    (content : Content) (metadata : AssistantMetadata)
    (table : List StoredMessage) : List StoredMessage × String :=
  let item : StoredMessage :=
    { PK := mkPK user_id session_id
      SK := timestamp
      message_id := message_id
      role := "assistant"
      content := content
      created_at := timestamp
      session_status := "active"
      model := some bedrock_model_id
      metadata := metadata.model_dump }
  (table ++ [item], message_id)

/-- `Worker.process_record` (worker.py lines 223-269) in the case where
history load and generation succeed.  `invoke` is the generation backend
(`LLMProvider.invoke_llm`); `startMs`/`endMs` are the two UTC clock reads
around it, in milliseconds, so `latency_ms = endMs - startMs`.  Returns
the table after the assistant put and the new assistant message id. -/
def process_record (bedrock_model_id : String)
    (invoke : List LLMInputMessage → LLMResponse) (startMs endMs : Int)
    (new_message_id timestamp : String) (message_body : WorkerMessageBody)
    (table : List StoredMessage) : List StoredMessage × String :=
  let conversation_history :=
    get_conversation_history table message_body.user_id
      message_body.session_id 20
  let llm_messages := build_bedrock_messages conversation_history
  let llm_response := invoke llm_messages
  let latency_ms : Int := endMs - startMs
  let metadata : AssistantMetadata :=
    ⟨latency_ms, llm_response.usage.input_tokens,
      llm_response.usage.output_tokens, message_body.message_id⟩
  save_assistant_message bedrock_model_id new_message_id timestamp
    message_body.user_id message_body.session_id llm_response.content
    metadata table

/-- The record loop of the worker `lambda_handler` (worker.py lines
292-296): parse each record body, process it, and stop at the first
failure.  `proc` abstracts `worker.process_record`, which may raise. -/
def processRecords (proc : WorkerMessageBody → Except PipelineError Unit) :
    List RawWorkerBody → Except PipelineError Unit
  | [] => Except.ok ()
  | r :: rs => do
      let body ← parseWorkerMessageBody r
      proc body
      processRecords proc rs

/-- The worker `lambda_handler` (worker.py lines 285-302): on success of
every record it returns statusCode 200; any exception is logged and
re-raised to the invoking runtime (modelled as `Except.error`), so the
channel's redelivery applies — there is no internal retry loop. -/
def lambda_handler (proc : WorkerMessageBody → Except PipelineError Unit)
    (records : List RawWorkerBody) : Except PipelineError Nat :=
  (processRecords proc records).map fun _ => 200

/-- C1: for every valid ingestion request (non-empty `user_id`,
`session_id`, `content`), `ChatService.send_message` appends exactly one
new Message with `role="user"` whose `message_id` is the returned
`message_id`, whose content is the submitted content, whose
`metadata.tokens` is the whitespace-token count of the content, and whose
`created_at` is the returned timestamp. -/
theorem send_message_appends_one_user_message
    (body : SendMessageRequest) (message_id timestamp : String)
    (st : ApiState) (_hu : body.user_id ≠ "") (_hs : body.session_id ≠ "")
    (_hc : body.content ≠ "") :
    ∃ m : StoredMessage,
      (send_message true true message_id timestamp body st).1.store =
        st.store ++ [m] ∧
      (send_message true true message_id timestamp body st).2 =
        Except.ok ⟨m.message_id, "processing", m.created_at⟩ ∧
      m.message_id = message_id ∧
      m.role = "user" ∧
      m.content = Content.str body.content ∧
      m.metadata =
        [("tokens", PyVal.int ((pyStrSplit body.content).length : Int)),
         ("source", PyVal.str "api")] ∧
      m.created_at = timestamp := by
  exact ⟨_, rfl, rfl, rfl, rfl, rfl, rfl, rfl⟩

/-- Witness for C1 at the spec's scenario `{user_id:"u1", session_id:"s1",
content:"Hello"}`: the stored metadata carries `tokens = 1`. -/
theorem send_message_appends_one_user_message_witness :
    ∃ m : StoredMessage,
      (send_message true true "mid-1" "2024-01-01T00:00:00Z"
          ⟨"u1", "s1", "Hello"⟩ ⟨[], []⟩).1.store = [] ++ [m] ∧
      (send_message true true "mid-1" "2024-01-01T00:00:00Z"
          ⟨"u1", "s1", "Hello"⟩ ⟨[], []⟩).2 =
        Except.ok ⟨m.message_id, "processing", m.created_at⟩ ∧
      m.message_id = "mid-1" ∧
      m.role = "user" ∧
      m.content = Content.str "Hello" ∧
      m.metadata =
        [("tokens", PyVal.int 1), ("source", PyVal.str "api")] ∧
      m.created_at = "2024-01-01T00:00:00Z" :=
  send_message_appends_one_user_message ⟨"u1", "s1", "Hello"⟩ "mid-1"
    "2024-01-01T00:00:00Z" ⟨[], []⟩ (by decide) (by decide) (by decide)

/-- C5: in `ChatService.send_message` the store write strictly precedes the
enqueue: when the enqueue fails the already-written user Message remains
stored with no rollback, no Job is enqueued and the operation fails; when
the write itself fails nothing happens at all; on success the same Message
is stored and the Job enqueued after it. -/
theorem send_message_write_precedes_enqueue
    (body : SendMessageRequest) (message_id timestamp : String)
    (st : ApiState) :
    ∃ m : StoredMessage,
      (send_message true false message_id timestamp body st).1 =
        ⟨st.store ++ [m], st.queue⟩ ∧
      (send_message true false message_id timestamp body st).2 =
        Except.error PipelineError.downstreamError ∧
      (send_message false false message_id timestamp body st).1 = st ∧
      (send_message true true message_id timestamp body st).1 =
        ⟨st.store ++ [m],
         st.queue ++ [⟨body.user_id, body.session_id, message_id⟩]⟩ := by
  exact ⟨_, rfl, rfl, rfl, rfl⟩

/-- C9: every Message written by either service has `created_at` equal to
the sort key, partition key `USER#{user_id}#SESSION#{session_id}`, role
`"user"` (ingestion) or `"assistant"` (worker), and the `model` attribute
absent on user records and set on assistant records. -/
theorem written_messages_satisfy_storage_contract
    (enqueueOk : Bool) (message_id timestamp : String)
    (body : SendMessageRequest) (st : ApiState)
    (bedrock_model_id mid2 ts2 uid2 sid2 : String) (content : Content)
    (meta : AssistantMetadata) (table : List StoredMessage) :
    (∃ mu : StoredMessage,
      (send_message true enqueueOk message_id timestamp body st).1.store =
        st.store ++ [mu] ∧
      mu.created_at = mu.SK ∧
      mu.PK = "USER#" ++ body.user_id ++ "#SESSION#" ++ body.session_id ∧
      mu.role = "user" ∧ mu.model = none) ∧
    (∃ ma : StoredMessage,
      (save_assistant_message bedrock_model_id mid2 ts2 uid2 sid2 content
          meta table).1 = table ++ [ma] ∧
      ma.created_at = ma.SK ∧
      ma.PK = "USER#" ++ uid2 ++ "#SESSION#" ++ sid2 ∧
      ma.role = "assistant" ∧ ma.model = some bedrock_model_id) := by
  constructor
  · cases enqueueOk <;> exact ⟨_, rfl, rfl, rfl, rfl, rfl⟩
  · exact ⟨_, rfl, rfl, rfl, rfl, rfl⟩

/-- C2 counterexample: the request `{user_id:"u1", session_id:"s1",
content:""}` has an empty `content`, yet validation succeeds, a Message is
written, a Job is enqueued and the route answers 202 — refuting the claim
that an empty field fails with a `ValidationError` and no side effects. -/
theorem empty_content_passes_validation_and_writes :
    (post_chat_message ⟨some "u1", some "s1", some ""⟩ true true "m1" "t1"
        ⟨[], []⟩).1.store ≠ [] ∧
    (post_chat_message ⟨some "u1", some "s1", some ""⟩ true true "m1" "t1"
        ⟨[], []⟩).1.queue ≠ [] ∧
    (post_chat_message ⟨some "u1", some "s1", some ""⟩ true true "m1" "t1"
        ⟨[], []⟩).2 = 202 ∧
    validateSendMessageRequest ⟨some "u1", some "s1", some ""⟩ =
      Except.ok ⟨"u1", "s1", ""⟩ := by
  refine ⟨?_, ?_, rfl, rfl⟩ <;> decide

/-- C2 amended: a request *missing* `user_id`, `session_id` or `content`
fails pydantic validation with a `ValidationError` and has no side effects
(no write, no enqueue; the route reports statusCode 500), while empty
strings pass validation; and a `GET /messages` `limit` of 0, negative, or
greater than 100 is rejected with a `ValidationError` rather than clamped
into the 1-100 bound. -/
theorem missing_fields_rejected_without_side_effects :
    (∀ (raw : RawSendMessageBody) (putOk enqueueOk : Bool)
       (message_id timestamp : String) (st : ApiState),
       raw.user_id = none ∨ raw.session_id = none ∨ raw.content = none →
       validateSendMessageRequest raw =
         Except.error PipelineError.validationError ∧
       post_chat_message raw putOk enqueueOk message_id timestamp st =
         (st, 500)) ∧
    (∀ (rawq : RawGetMessagesParams) (l : Int),
       rawq.limit = some l → l < 1 ∨ 100 < l →
       validateGetMessagesQueryParams rawq =
         Except.error PipelineError.validationError) := by
  constructor
  · rintro ⟨u, s, c⟩ putOk enqueueOk message_id timestamp st h
    have hval : validateSendMessageRequest ⟨u, s, c⟩ =
        Except.error PipelineError.validationError := by
      cases u <;> cases s <;> cases c <;>
        simp_all [validateSendMessageRequest]
    exact ⟨hval, by simp [post_chat_message, hval]⟩
  · rintro ⟨u, s, lim⟩ l hl hrange
    subst hl
    cases u <;> cases s <;> simp only [validateGetMessagesQueryParams]
    rw [if_neg]
    simp only [Option.getD_some, not_and, not_le]
    intro h1
    omega

/-- Witness for C2 amended: a body missing `user_id` is rejected with no
state change, and `limit=0` is rejected. -/
theorem missing_fields_rejected_without_side_effects_witness :
    (validateSendMessageRequest ⟨none, some "s1", some "hi"⟩ =
       Except.error PipelineError.validationError ∧
     post_chat_message ⟨none, some "s1", some "hi"⟩ true true "m1" "t1"
       ⟨[], []⟩ = (⟨[], []⟩, 500)) ∧
    validateGetMessagesQueryParams ⟨some "u1", some "s1", some 0⟩ =
      Except.error PipelineError.validationError :=
  ⟨missing_fields_rejected_without_side_effects.1 ⟨none, some "s1", some "hi"⟩
      true true "m1" "t1" ⟨[], []⟩ (Or.inl rfl),
   missing_fields_rejected_without_side_effects.2 ⟨some "u1", some "s1", some 0⟩
      0 rfl (Or.inl (by decide))⟩

/-- The descending-read relation used by the DynamoDB query model is total. -/
theorem skDescTotal : IsTotal StoredMessage fun a b => b.SK ≤ a.SK :=
  ⟨fun a b => le_total b.SK a.SK⟩

/-- The descending-read relation used by the DynamoDB query model is
transitive. -/
theorem skDescTrans : IsTrans StoredMessage fun a b => b.SK ≤ a.SK :=
  ⟨fun _ _ _ hab hbc => le_trans hbc hab⟩

/-- C4: for every partition and limit, `query_messages` (API) and
`get_conversation_history` (worker) return the reversal of the up-to-limit
most-recent entries read in descending sort-key order: at most `limit`
elements, in chronological order, i.e. adjacent elements non-decreasing in
`SK` (ties allowed, their relative order unspecified). -/
theorem query_recent_returns_chronological_order
    (table : List StoredMessage) (user_id session_id : String)
    (limit : Nat) :
    query_messages table user_id session_id limit =
      (dynamoQueryDesc table (mkPK user_id session_id) limit).reverse ∧
    (query_messages table user_id session_id limit).length ≤ limit ∧
    List.Chain' (fun a b => a.SK ≤ b.SK)
      (query_messages table user_id session_id limit) ∧
    get_conversation_history table user_id session_id limit =
      query_messages table user_id session_id limit := by
  refine ⟨rfl, ?_, ?_, rfl⟩
  · simp only [query_messages, dynamoQueryDesc, List.length_reverse]
    exact List.length_take_le limit _
  · haveI := skDescTotal
    haveI := skDescTrans
    have hs : List.Sorted (fun a b : StoredMessage => b.SK ≤ a.SK)
        ((table.filter fun m =>
          m.PK == mkPK user_id session_id).insertionSort
            fun a b => b.SK ≤ a.SK) :=
      List.sorted_insertionSort _ _
    have ht : List.Pairwise (fun a b : StoredMessage => b.SK ≤ a.SK)
        (dynamoQueryDesc table (mkPK user_id session_id) limit) :=
      List.Pairwise.sublist (List.take_sublist _ _) hs
    exact (List.pairwise_reverse.mpr ht).chain'

/-- C8: `get_user_sessions` returns exactly the session identifiers
extracted (as the segment after `#SESSION#`) from active-status items
whose partition key begins with the user's prefix — duplicates collapsed
(the result is a set) and items without a `#SESSION#` segment skipped
without error. -/
theorem get_user_sessions_characterization
    (table : List StoredMessage) (user_id sid : String) :
    sid ∈ get_user_sessions table user_id ↔
      ∃ m ∈ table, m.session_status = "active" ∧
        pyStartsWith m.PK ("USER#" ++ user_id ++ "#") = true ∧
        (pySplitOn m.PK "#SESSION#").get? 1 = some sid := by
  simp only [get_user_sessions, List.mem_toFinset, List.mem_filterMap,
    List.mem_filter, Bool.and_eq_true, beq_iff_eq]
  constructor
  · rintro ⟨m, ⟨hm, hact, hpre⟩, hsid⟩
    exact ⟨m, hm, hact, hpre, hsid⟩
  · rintro ⟨m, hm, hact, hpre, hsid⟩
    exact ⟨m, ⟨hm, hact, hpre⟩, hsid⟩

/-- C3: for every well-formed Job whose history load and generation call
succeed, `Worker.process_record` appends exactly one assistant Message
whose metadata dict is exactly `{latency_ms, input_tokens, output_tokens,
user_message_id}`, with `user_message_id` equal to the Job's `message_id`,
`latency_ms = endMs - startMs ≥ 0` (the clock reads bracket the call), and
the usage counters copied from the backend's response; the statement
quantifies over every prior table state, including the empty one. -/
theorem process_record_appends_one_assistant_message
    (bedrock_model_id : String) (invoke : List LLMInputMessage → LLMResponse)
    (startMs endMs : Int) (new_message_id timestamp : String)
    (message_body : WorkerMessageBody) (table : List StoredMessage)
    (hclock : startMs ≤ endMs) :
    ∃ ma : StoredMessage,
      (process_record bedrock_model_id invoke startMs endMs new_message_id
          timestamp message_body table).1 = table ++ [ma] ∧
      (process_record bedrock_model_id invoke startMs endMs new_message_id
          timestamp message_body table).2 = new_message_id ∧
      ma.role = "assistant" ∧
      ma.metadata =
        [("latency_ms", PyVal.int (endMs - startMs)),
         ("input_tokens", PyVal.int
           ((invoke (build_bedrock_messages (get_conversation_history table
             message_body.user_id message_body.session_id
             20))).usage.input_tokens)),
         ("output_tokens", PyVal.int
           ((invoke (build_bedrock_messages (get_conversation_history table
             message_body.user_id message_body.session_id
             20))).usage.output_tokens)),
         ("user_message_id", PyVal.str message_body.message_id)] ∧
      0 ≤ endMs - startMs := by
  exact ⟨_, rfl, rfl, rfl, rfl, by omega⟩

/-- Witness for C3: a Job processed against an empty table (empty prior
history) appends one assistant Message with the backend's usage counters
and a non-negative latency. -/
theorem process_record_appends_one_assistant_message_witness :
    ∃ ma : StoredMessage,
      (process_record "amazon.nova-lite-v1:0"
          (fun _ => ⟨Content.str "Hi there", ⟨7, 3⟩⟩) 100 250 "amid-1"
          "2024-01-01T00:00:05Z" ⟨"u1", "s1", "mid-1"⟩ []).1 = [] ++ [ma] ∧
      (process_record "amazon.nova-lite-v1:0"
          (fun _ => ⟨Content.str "Hi there", ⟨7, 3⟩⟩) 100 250 "amid-1"
          "2024-01-01T00:00:05Z" ⟨"u1", "s1", "mid-1"⟩ []).2 = "amid-1" ∧
      ma.role = "assistant" ∧
      ma.metadata =
        [("latency_ms", PyVal.int 150),
         ("input_tokens", PyVal.int 7),
         ("output_tokens", PyVal.int 3),
         ("user_message_id", PyVal.str "mid-1")] ∧
      (0 : Int) ≤ 250 - 100 :=
  process_record_appends_one_assistant_message "amazon.nova-lite-v1:0"
    (fun _ => ⟨Content.str "Hi there", ⟨7, 3⟩⟩) 100 250 "amid-1"
    "2024-01-01T00:00:05Z" ⟨"u1", "s1", "mid-1"⟩ [] (by decide)

/-- C6: a failure at any record — a payload missing a required field, which
is rejected by parsing, or a processing failure — makes the worker
`lambda_handler` return that very error to its invoking runtime (no
swallowing, no internal retry), and a payload missing `user_id`,
`session_id` or `message_id` always fails parsing. -/
theorem lambda_handler_propagates_failures :
    (∀ (proc : WorkerMessageBody → Except PipelineError Unit)
       (pre post : List RawWorkerBody) (r : RawWorkerBody)
       (e : PipelineError),
       (∀ r' ∈ pre, ∃ b, parseWorkerMessageBody r' = Except.ok b ∧
          proc b = Except.ok ()) →
       (parseWorkerMessageBody r = Except.error e ∨
         ∃ b, parseWorkerMessageBody r = Except.ok b ∧
           proc b = Except.error e) →
       lambda_handler proc (pre ++ r :: post) = Except.error e) ∧
    (∀ raw : RawWorkerBody,
       raw.user_id = none ∨ raw.session_id = none ∨ raw.message_id = none →
       parseWorkerMessageBody raw =
         Except.error PipelineError.validationError) := by
  have hcons : ∀ (proc : WorkerMessageBody → Except PipelineError Unit)
      (r : RawWorkerBody) (rs : List RawWorkerBody),
      processRecords proc (r :: rs) =
        (parseWorkerMessageBody r).bind fun body =>
          (proc body).bind fun _ => processRecords proc rs :=
    fun _ _ _ => rfl
  constructor
  · intro proc pre post r e hpre hr
    induction pre with
    | nil =>
        rcases hr with h | ⟨b, hb, hpb⟩
        · simp [lambda_handler, List.nil_append, hcons, h, Except.bind,
            Except.map]
        · simp [lambda_handler, List.nil_append, hcons, hb, hpb,
            Except.bind, Except.map]
    | cons r' pre' ih =>
        obtain ⟨b', hb', hpb'⟩ := hpre r' (List.mem_cons_self r' pre')
        have ih' := ih fun x hx => hpre x (List.mem_cons_of_mem r' hx)
        simp only [lambda_handler, List.cons_append, hcons, hb', hpb',
          Except.bind] at ih' ⊢
        exact ih'
  · rintro ⟨u, s, m⟩ h
    cases u <;> cases s <;> cases m <;>
      simp_all [parseWorkerMessageBody]

/-- Witness for C6: a single record missing `message_id` makes the handler
fail with the parse error rather than return success. -/
theorem lambda_handler_propagates_failures_witness :
    lambda_handler (fun _ => Except.ok ())
      ([] ++ ⟨some "u1", some "s1", none⟩ :: []) =
      Except.error PipelineError.validationError ∧
    parseWorkerMessageBody ⟨some "u1", some "s1", none⟩ =
      Except.error PipelineError.validationError :=
  ⟨lambda_handler_propagates_failures.1 (fun _ => Except.ok ()) [] []
      ⟨some "u1", some "s1", none⟩ PipelineError.validationError
      (by simp) (Or.inl rfl),
   lambda_handler_propagates_failures.2 ⟨some "u1", some "s1", none⟩
      (Or.inr (Or.inr rfl))⟩

/-- A left fold that appends one image per element is the map: helper for
the accumulating loops of worker.py. -/
theorem foldlConcat_eq_map {α β : Type} (g : α → β) (l : List α)
    (acc : List β) :
    l.foldl (fun acc x => acc ++ [g x]) acc = acc ++ l.map g := by
  induction l generalizing acc with
  | nil => simp
  | cons x xs ih => simp [ih]

/-- C7: `build_bedrock_messages` maps every stored Message to one role+text
turn — string content passed through unchanged, structured content
serialized with `json.dumps` — so a Message stored with structured content
and loaded back through the history read yields exactly the canonical
serialization of that structure. -/
theorem build_bedrock_messages_serializes_content :
    (∀ history : List StoredMessage,
       build_bedrock_messages history = history.map fun m =>
         (⟨m.role,
           match m.content with
           | Content.str s => s
           | Content.dict d => jsonDumps d⟩ : LLMInputMessage)) ∧
    (∀ (m : StoredMessage) (d : List (String × StrOrInt))
       (user_id session_id : String),
       m.content = Content.dict d → m.PK = mkPK user_id session_id →
       build_bedrock_messages
           (get_conversation_history [m] user_id session_id 20) =
         [⟨m.role, jsonDumps d⟩]) := by
  have hmap : ∀ history : List StoredMessage,
      build_bedrock_messages history = history.map fun m =>
        (⟨m.role,
          match m.content with
          | Content.str s => s
          | Content.dict d => jsonDumps d⟩ : LLMInputMessage) := by
    intro history
    exact foldlConcat_eq_map _ history []
  refine ⟨hmap, ?_⟩
  intro m d user_id session_id hc hpk
  have hload : get_conversation_history [m] user_id session_id 20 = [m] := by
    simp [get_conversation_history, dynamoQueryDesc, List.filter, hpk,
      List.insertionSort]
  rw [hload, hmap [m], List.map_singleton, hc]

/-- Witness for C7: a stored assistant Message with dict content
round-trips through the history read and context building to the
`json.dumps` text of that dict. -/
theorem build_bedrock_messages_serializes_content_witness :
    build_bedrock_messages
        (get_conversation_history
          [{ PK := "USER#u1#SESSION#s1", SK := "t1", message_id := "m1",
             role := "assistant",
             content := Content.dict
               [("a", StrOrInt.i 1), ("note", StrOrInt.s "hi")],
             created_at := "t1", session_status := "active", model := none,
             metadata := [] }] "u1" "s1" 20) =
      [⟨"assistant",
        jsonDumps [("a", StrOrInt.i 1), ("note", StrOrInt.s "hi")]⟩] ∧
    jsonDumps [("a", StrOrInt.i 1), ("note", StrOrInt.s "hi")] =
      "\x7b\"a\": 1, \"note\": \"hi\"\x7d" :=
  ⟨build_bedrock_messages_serializes_content.2
      { PK := "USER#u1#SESSION#s1", SK := "t1", message_id := "m1",
        role := "assistant",
        content := Content.dict
          [("a", StrOrInt.i 1), ("note", StrOrInt.s "hi")],
        created_at := "t1", session_status := "active", model := none,
        metadata := [] }
      [("a", StrOrInt.i 1), ("note", StrOrInt.s "hi")] "u1" "s1" rfl rfl,
   by decide⟩

/-- C10: the LangChain adapter forwards exactly the turns whose role is
`"user"` (as `HumanMessage`) or `"assistant"` (as `AIMessage`), in order;
a turn with any other role is silently omitted, not rejected. -/
theorem invoke_llm_forwards_user_and_assistant_turns
    (messages : List LLMInputMessage) :
    toLangchainMessages messages = messages.filterMap fun msg =>
      if msg.role = "user" then some (LangchainMessage.human msg.content)
      else if msg.role = "assistant" then some (LangchainMessage.ai msg.content)
      else none := by
  have aux : ∀ (l : List LLMInputMessage) (acc : List LangchainMessage),
      l.foldl
        (fun langchain_messages msg =>
          if msg.role = "user" then
            langchain_messages ++ [LangchainMessage.human msg.content]
          else if msg.role = "assistant" then
            langchain_messages ++ [LangchainMessage.ai msg.content]
          else langchain_messages)
        acc =
      acc ++ l.filterMap fun msg =>
        if msg.role = "user" then some (LangchainMessage.human msg.content)
        else if msg.role = "assistant" then
          some (LangchainMessage.ai msg.content)
        else none := by
    intro l
    induction l with
    | nil => simp
    | cons msg rest ih =>
        intro acc
        by_cases h1 : msg.role = "user"
        · simp [List.filterMap_cons, h1, ih]
        · by_cases h2 : msg.role = "assistant"
          · simp [List.filterMap_cons, h1, h2, ih]
          · simp [List.filterMap_cons, h1, h2, ih]
  exact aux messages []

end AwsRag
